import Mathlib

/-!
Verification of the EV range-estimation engine of `src/src/pages/Index.tsx`.

The repository contains two variant single-page range calculators:

* Schema A (degradation model): `getDynamicDefaults`, `calculateRange`,
  `validateInputs`, `calculateStats`, and the recompute effect that sets
  `predictedRange` (lines 98–201 of the source).
* Schema B (EPA model): the arithmetic inside the `useEffect` of the second
  component (lines 793–841 of the source).

JavaScript numbers are modelled by real numbers (`ℝ`) for Schema A, whose
`Math.sqrt` call forces irrational values, and by rationals (`ℚ`) for
Schema B, which is purely rational arithmetic.  The ternary operator on the
boolean toggles is modelled by `cond`.  A JavaScript division whose divisor
is zero produces a non-finite value (`NaN`/`Infinity`); where a claim is
about that behaviour the division is modelled as a partial operation
returning `Option`.  The `toFixed(d)` display formatting of the source is
modelled by rounding `x * 10^d` to the nearest integer.  The named local
constants of `calculateRange` (source lines 109–118) are lifted to
top-level definitions with the same names and formulas.
-/

namespace EvDashboard

/-- Source line 109: `cycleDegradation = 0.0001 * batteryAgeCycles + 0.00000002 * batteryAgeCycles ** 2`. -/
noncomputable def cycleDegradation (batteryAgeCycles : ℝ) : ℝ :=
  0.0001 * batteryAgeCycles + 0.00000002 * batteryAgeCycles ^ 2

/-- Source line 110: `calendarDegradation = 0.02 * Math.sqrt(batteryAgeYears)`. -/
noncomputable def calendarDegradation (batteryAgeYears : ℝ) : ℝ :=
  0.02 * Real.sqrt batteryAgeYears

/-- Source line 111: `degradation = Math.max(0.7, 1 - (cycleDegradation + calendarDegradation))`. -/
noncomputable def degradation (batteryAgeCycles batteryAgeYears : ℝ) : ℝ :=
  max 0.7 (1 - (cycleDegradation batteryAgeCycles + calendarDegradation batteryAgeYears))

/-- Source line 112: `tempFactor = Math.max(0.7, 1.0 - 0.005 * Math.abs(temperature - 25))`. -/
noncomputable def tempFactor (temperature : ℝ) : ℝ :=
  max 0.7 (1.0 - 0.005 * |temperature - 25|)

/-- Source lines 115–116: the eight-way product `effectiveCapacity`, with the
toggle ternaries `climateControl ? climateFactor : 1.0` and
`regenBraking ? regenFactor : 1.0` inlined. -/
noncomputable def effectiveCapacity (soc batteryCapacity temperature baseEfficiency
    chargingDegradation batteryAgeCycles batteryAgeYears : ℝ) (climateControl : Bool)
    (climateFactor : ℝ) (regenBraking : Bool) (regenFactor : ℝ) : ℝ :=
  batteryCapacity * (soc / 100) * degradation batteryAgeCycles batteryAgeYears *
    baseEfficiency * chargingDegradation * tempFactor temperature *
    (cond climateControl climateFactor 1.0) * (cond regenBraking regenFactor 1.0)

/-- Result record of Schema A `calculateRange` (source lines 120–128).  The
source returns each field as a `toFixed` string; the numeric content before
formatting is kept here, with the same scaling the source applies
(degradation fields are multiplied by 100, `range` is clamped at 0). -/
structure RangeStats where
  range : ℝ
  effectiveCapacity : ℝ
  cycleDegradation : ℝ
  calendarDegradation : ℝ
  totalDegradation : ℝ
  tempFactor : ℝ
  energyConsumption : ℝ

/-- Source lines 104–129, `calculateRange`. -/
noncomputable def calculateRange (soc batteryCapacity drivingConsumption temperature
    baseEfficiency chargingDegradation batteryAgeCycles batteryAgeYears
    terrainFactor : ℝ) (climateControl : Bool) (climateFactor : ℝ)
    (regenBraking : Bool) (regenFactor : ℝ) : RangeStats :=
  { range := max 0 ((effectiveCapacity soc batteryCapacity temperature baseEfficiency
      chargingDegradation batteryAgeCycles batteryAgeYears climateControl climateFactor
      regenBraking regenFactor / (drivingConsumption * terrainFactor)) * 100)
    effectiveCapacity := effectiveCapacity soc batteryCapacity temperature baseEfficiency
      chargingDegradation batteryAgeCycles batteryAgeYears climateControl climateFactor
      regenBraking regenFactor
    cycleDegradation := cycleDegradation batteryAgeCycles * 100
    calendarDegradation := calendarDegradation batteryAgeYears * 100
    totalDegradation := (1 - degradation batteryAgeCycles batteryAgeYears) * 100
    tempFactor := tempFactor temperature
    energyConsumption := drivingConsumption * terrainFactor }

/-- JavaScript `toFixed(d)` formatting, modelled as the integer numeral the
formatted string denotes in units of `10^-d`. -/
noncomputable def toFixed (d : ℕ) (x : ℝ) : ℤ := round (x * 10 ^ d)

/-- Real.sqrt 2 bounds used by the Schema A fixture computation. -/
theorem sqrt_two_bounds : (1.414213 : ℝ) < Real.sqrt 2 ∧ Real.sqrt 2 < 1.414214 := by
  have h0 : (0 : ℝ) ≤ 2 := by norm_num
  have hsq : Real.sqrt 2 ^ 2 = 2 := Real.sq_sqrt h0
  have hnn : (0 : ℝ) ≤ Real.sqrt 2 := Real.sqrt_nonneg 2
  constructor
  · nlinarith [hsq, hnn]
  · nlinarith [hsq, hnn]

theorem degradation_100_2 : degradation 100 2 = 0.9898 - 0.02 * Real.sqrt 2 := by
  obtain ⟨hlo, hhi⟩ := sqrt_two_bounds
  unfold degradation cycleDegradation calendarDegradation
  rw [max_eq_right]
  · ring
  · nlinarith [hhi]

theorem tempFactor_25 : tempFactor 25 = 1 := by
  unfold tempFactor
  norm_num

/-- The Schema A regression fixture: soc 80, capacity 60, consumption 16,
temperature 25, baseEfficiency 0.98, chargingDegradation 0.98, cycles 100,
years 2, terrainFactor 1.0, climate control off (factor 0.85 unused), regen
braking on with factor 1.05. -/
noncomputable def fixtureRange : ℝ :=
  (calculateRange 80 60 16 25 0.98 0.98 100 2 1.0 false 0.85 true 1.05).range

theorem fixtureRange_bounds : (290.86 : ℝ) ≤ fixtureRange ∧ fixtureRange < 290.91 := by
  obtain ⟨hlo, hhi⟩ := sqrt_two_bounds
  unfold fixtureRange calculateRange effectiveCapacity
  rw [degradation_100_2, tempFactor_25]
  simp only [cond]
  rw [div_mul_eq_mul_div]
  constructor
  · refine le_trans ?_ (le_max_right _ _)
    rw [le_div_iff (by norm_num : (0:ℝ) < 16 * 1.0)]
    nlinarith [hlo, hhi]
  · refine max_lt (by norm_num) ?_
    rw [div_lt_iff (by norm_num : (0:ℝ) < 16 * 1.0)]
    nlinarith [hlo, hhi]

/-- C1 counterexample: the regression fixture of the claim does NOT format to
254.7 km at one decimal; the rounded tenths value is not 2547. -/
theorem C1_fixture_not_254_7 : toFixed 1 fixtureRange ≠ 2547 := by
  obtain ⟨hlo, hhi⟩ := fixtureRange_bounds
  unfold toFixed
  rw [round_eq]
  intro h
  rw [Int.floor_eq_iff] at h
  push_cast at h
  nlinarith [hlo, h.2]

/-- C1 (amended): Schema A, with soc 80, capacity 60, consumption 16,
terrainFactor 1.0 and every advanced parameter at its stated default
(temperature 25, baseEfficiency 0.98, chargingDegradation 0.98, cycles 100,
years 2, climate control off, regen on with factor 1.05), the predicted range
formats to 290.9 km at one decimal. -/
theorem C1_fixture_range_290_9 : toFixed 1 fixtureRange = 2909 := by
  obtain ⟨hlo, hhi⟩ := fixtureRange_bounds
  unfold toFixed
  rw [round_eq, Int.floor_eq_iff]
  push_cast
  constructor
  · nlinarith [hlo]
  · nlinarith [hhi]

/-- Capacity-derived defaults record (source lines 98–102). -/
structure DynamicDefaults where
  consumption : ℝ
  terrainFactor : ℝ

/-- Source lines 98–102: `consumption = capacity > 75 ? 18 : capacity < 40 ? 14 : 16`,
`terrainFactor = capacity > 75 ? 1.05 : 1.0`. -/
noncomputable def getDynamicDefaults (capacity : ℝ) : DynamicDefaults :=
  { consumption := if capacity > 75 then 18 else if capacity < 40 then 14 else 16
    terrainFactor := if capacity > 75 then 1.05 else 1.0 }

/-- Result record of `calculateStats` (source lines 139–181): the main
`calculateRange` stats, the SOC sensitivity table as (soc, range) pairs, and
the consumption breakdown (driving, climate, other). -/
structure FullStats where
  stats : RangeStats
  rangeSensitivity : List (ℝ × ℝ)
  consumptionBreakdown : ℝ × ℝ × ℝ

/-- Source lines 139–181, `calculateStats`.  Each `showAdvanced ? x : default`
ternary is `cond showAdvanced x default`; in simple mode consumption and
terrain factor come from `getDynamicDefaults` and the remaining advanced
parameters from the fixed defaults of the source. -/
noncomputable def calculateStats (showAdvanced : Bool)
    (soc batteryCapacity drivingConsumption temperature baseEfficiency
    chargingDegradation batteryAgeCycles batteryAgeYears terrainFactor : ℝ)
    (climateControl : Bool) (climateFactor : ℝ)
    (regenBraking : Bool) (regenFactor : ℝ) : FullStats :=
  { stats := calculateRange soc batteryCapacity
      (cond showAdvanced drivingConsumption (getDynamicDefaults batteryCapacity).consumption)
      (cond showAdvanced temperature 25)
      (cond showAdvanced baseEfficiency 0.98)
      (cond showAdvanced chargingDegradation 0.98)
      (cond showAdvanced batteryAgeCycles 100)
      (cond showAdvanced batteryAgeYears 2)
      (cond showAdvanced terrainFactor (getDynamicDefaults batteryCapacity).terrainFactor)
      (cond showAdvanced climateControl false)
      (cond showAdvanced climateFactor 0.85)
      (cond showAdvanced regenBraking true)
      (cond showAdvanced regenFactor 1.05)
    rangeSensitivity := ([10, 30, 50, 70, 90] : List ℝ).map (fun s =>
      (s, (calculateRange s batteryCapacity
        (cond showAdvanced drivingConsumption (getDynamicDefaults batteryCapacity).consumption)
        (cond showAdvanced temperature 25)
        (cond showAdvanced baseEfficiency 0.98)
        (cond showAdvanced chargingDegradation 0.98)
        (cond showAdvanced batteryAgeCycles 100)
        (cond showAdvanced batteryAgeYears 2)
        (cond showAdvanced terrainFactor (getDynamicDefaults batteryCapacity).terrainFactor)
        (cond showAdvanced climateControl false)
        (cond showAdvanced climateFactor 0.85)
        (cond showAdvanced regenBraking true)
        (cond showAdvanced regenFactor 1.05)).range))
    consumptionBreakdown := (drivingConsumption * terrainFactor,
      cond climateControl (drivingConsumption * (1 - climateFactor)) 0,
      drivingConsumption * 0.1) }

/-- Source lines 131–137, `validateInputs`: every required field (the full
advanced list when `showAdvanced`, else soc/capacity/consumption) must be a
non-empty numeric entry.  A field's raw string state is modelled as
`Option ℝ`: `none` stands for an entry that is empty or non-numeric
(`val === '' || isNaN(Number(val))`), `some x` for the numeric value `x`. -/
def validateInputs (showAdvanced : Bool)
    (soc batteryCapacity drivingConsumption temperature baseEfficiency
    chargingDegradation batteryAgeCycles batteryAgeYears terrainFactor
    climateFactor regenFactor : Option ℝ) : Bool :=
  cond showAdvanced
    (soc.isSome && batteryCapacity.isSome && drivingConsumption.isSome &&
      temperature.isSome && baseEfficiency.isSome && chargingDegradation.isSome &&
      batteryAgeCycles.isSome && batteryAgeYears.isSome && terrainFactor.isSome &&
      climateFactor.isSome && regenFactor.isSome)
    (soc.isSome && batteryCapacity.isSome && drivingConsumption.isSome)

/-- Source lines 184–201 (and 203–219): the recompute handler sets
`predictedRange` to the computed range when `validateInputs()` holds and to
`null` (here `none`) otherwise.  `Number(val)` conversion of a validated
field is `Option.getD · 0`. -/
noncomputable def recomputePredictedRange (showAdvanced : Bool)
    (soc batteryCapacity drivingConsumption temperature baseEfficiency
    chargingDegradation batteryAgeCycles batteryAgeYears terrainFactor : Option ℝ)
    (climateControl : Bool) (climateFactor : Option ℝ)
    (regenBraking : Bool) (regenFactor : Option ℝ) : Option ℝ :=
  if validateInputs showAdvanced soc batteryCapacity drivingConsumption temperature
      baseEfficiency chargingDegradation batteryAgeCycles batteryAgeYears terrainFactor
      climateFactor regenFactor then
    some ((calculateStats showAdvanced (soc.getD 0) (batteryCapacity.getD 0)
      (drivingConsumption.getD 0) (temperature.getD 0) (baseEfficiency.getD 0)
      (chargingDegradation.getD 0) (batteryAgeCycles.getD 0) (batteryAgeYears.getD 0)
      (terrainFactor.getD 0) climateControl (climateFactor.getD 0) regenBraking
      (regenFactor.getD 0)).stats.range)
  else none

/-- Reference formula of spec §4.1, written from the spec's nine steps (not
from the source) for the refinement comparison of claim C3. -/
noncomputable def specComputeRange (soc batteryCapacityKWh drivingConsumptionKWhPer100km
    temperatureC baseEfficiency chargingDegradation batteryAgeCycles batteryAgeYears
    terrainFactor : ℝ) (climateControlEnabled : Bool) (climateFactor : ℝ)
    (regenBrakingEnabled : Bool) (regenFactor : ℝ) : ℝ :=
  let specCycleDegradation := 0.0001 * batteryAgeCycles + 0.00000002 * batteryAgeCycles ^ 2
  let specCalendarDegradation := 0.02 * Real.sqrt batteryAgeYears
  let specDegradation := max 0.7 (1 - (specCycleDegradation + specCalendarDegradation))
  let specTempFactor := max 0.7 (1 - 0.005 * |temperatureC - 25|)
  let climateFactorEff := cond climateControlEnabled climateFactor 1.0
  let regenFactorEff := cond regenBrakingEnabled regenFactor 1.0
  let specEffectiveCapacity := batteryCapacityKWh * (soc / 100) * specDegradation *
    baseEfficiency * chargingDegradation * specTempFactor * climateFactorEff * regenFactorEff
  let specEnergyConsumption := drivingConsumptionKWhPer100km * terrainFactor
  max 0 (specEffectiveCapacity / specEnergyConsumption * 100)

/-- Numeral bridge: the source spells the temperature-factor base `1.0`, the
spec spells it `1`. -/
theorem tempFactor_eq_one_numeral (t : ℝ) :
    tempFactor t = max 0.7 (1 - 0.005 * |t - 25|) := by
  unfold tempFactor
  norm_num

/-- C3: Schema A `calculateRange` computes exactly the nine-step reference
formula of §4.1; its degradation factor never falls below 0.7, its energy
consumption is `drivingConsumption * terrainFactor`, and the returned range
is always nonnegative. -/
theorem C3_calculateRange_matches_spec (soc batteryCapacity drivingConsumption temperature
    baseEfficiency chargingDegradation batteryAgeCycles batteryAgeYears
    terrainFactor : ℝ) (climateControl : Bool) (climateFactor : ℝ)
    (regenBraking : Bool) (regenFactor : ℝ) :
    (calculateRange soc batteryCapacity drivingConsumption temperature baseEfficiency
      chargingDegradation batteryAgeCycles batteryAgeYears terrainFactor climateControl
      climateFactor regenBraking regenFactor).range =
      specComputeRange soc batteryCapacity drivingConsumption temperature baseEfficiency
        chargingDegradation batteryAgeCycles batteryAgeYears terrainFactor climateControl
        climateFactor regenBraking regenFactor ∧
    0.7 ≤ degradation batteryAgeCycles batteryAgeYears ∧
    (calculateRange soc batteryCapacity drivingConsumption temperature baseEfficiency
      chargingDegradation batteryAgeCycles batteryAgeYears terrainFactor climateControl
      climateFactor regenBraking regenFactor).energyConsumption =
      drivingConsumption * terrainFactor ∧
    0 ≤ (calculateRange soc batteryCapacity drivingConsumption temperature baseEfficiency
      chargingDegradation batteryAgeCycles batteryAgeYears terrainFactor climateControl
      climateFactor regenBraking regenFactor).range := by
  refine ⟨?_, le_max_left _ _, rfl, le_max_left _ _⟩
  have h1 : (calculateRange soc batteryCapacity drivingConsumption temperature
      baseEfficiency chargingDegradation batteryAgeCycles batteryAgeYears terrainFactor
      climateControl climateFactor regenBraking regenFactor).range =
      max 0 ((effectiveCapacity soc batteryCapacity temperature baseEfficiency
        chargingDegradation batteryAgeCycles batteryAgeYears climateControl climateFactor
        regenBraking regenFactor / (drivingConsumption * terrainFactor)) * 100) := rfl
  rw [h1]
  unfold effectiveCapacity
  rw [tempFactor_eq_one_numeral]
  unfold specComputeRange degradation cycleDegradation calendarDegradation
  rfl

/-- C4: in simple mode (advanced options hidden) the driving-consumption
entry is validated but ignored by the range computation: two parameter sets
differing only in it produce the same predicted range and the same
sensitivity table. -/
theorem C4_consumption_ignored_in_simple_mode (soc batteryCapacity d1 d2 temperature
    baseEfficiency chargingDegradation batteryAgeCycles batteryAgeYears
    terrainFactor : ℝ) (climateControl : Bool) (climateFactor : ℝ)
    (regenBraking : Bool) (regenFactor : ℝ) :
    (calculateStats false soc batteryCapacity d1 temperature baseEfficiency
      chargingDegradation batteryAgeCycles batteryAgeYears terrainFactor climateControl
      climateFactor regenBraking regenFactor).stats.range =
      (calculateStats false soc batteryCapacity d2 temperature baseEfficiency
        chargingDegradation batteryAgeCycles batteryAgeYears terrainFactor climateControl
        climateFactor regenBraking regenFactor).stats.range ∧
    (calculateStats false soc batteryCapacity d1 temperature baseEfficiency
      chargingDegradation batteryAgeCycles batteryAgeYears terrainFactor climateControl
      climateFactor regenBraking regenFactor).rangeSensitivity =
      (calculateStats false soc batteryCapacity d2 temperature baseEfficiency
        chargingDegradation batteryAgeCycles batteryAgeYears terrainFactor climateControl
        climateFactor regenBraking regenFactor).rangeSensitivity :=
  ⟨rfl, rfl⟩

/-- C5: whenever validation fails (a required field missing or non-numeric),
the recompute handler yields no numeric range: `predictedRange` is `none`. -/
theorem C5_invalid_input_yields_no_range (showAdvanced : Bool)
    (soc batteryCapacity drivingConsumption temperature baseEfficiency
    chargingDegradation batteryAgeCycles batteryAgeYears terrainFactor : Option ℝ)
    (climateControl : Bool) (climateFactor : Option ℝ)
    (regenBraking : Bool) (regenFactor : Option ℝ)
    (h : validateInputs showAdvanced soc batteryCapacity drivingConsumption temperature
      baseEfficiency chargingDegradation batteryAgeCycles batteryAgeYears terrainFactor
      climateFactor regenFactor = false) :
    recomputePredictedRange showAdvanced soc batteryCapacity drivingConsumption
      temperature baseEfficiency chargingDegradation batteryAgeCycles batteryAgeYears
      terrainFactor climateControl climateFactor regenBraking regenFactor = none := by
  unfold recomputePredictedRange
  rw [h]
  simp

/-- C5 witness: with the soc entry empty, simple-mode validation fails and
the recompute handler yields `none`. -/
theorem C5_invalid_input_yields_no_range_witness :
    validateInputs false none (some 60) (some 16) (some 25) (some 0.98) (some 0.98)
      (some 100) (some 2) (some 1) (some 0.85) (some 1.05) = false ∧
    recomputePredictedRange false none (some 60) (some 16) (some 25) (some 0.98)
      (some 0.98) (some 100) (some 2) (some 1) false (some 0.85) true (some 1.05) =
      none := by
  refine ⟨rfl, ?_⟩
  exact C5_invalid_input_yields_no_range false none (some 60) (some 16) (some 25)
    (some 0.98) (some 0.98) (some 100) (some 2) (some 1) false (some 0.85) true
    (some 1.05) rfl

/-- C7: the capacity-derived defaults are consumption 18 / 14 / 16 according
to capacity > 75 / < 40 / otherwise, terrain factor 1.05 above 75 else 1.0,
and with advanced mode off the main stats are those of `calculateRange` on
exactly these derived values and the fixed simple-mode defaults. -/
theorem C7_dynamic_defaults (capacity soc drivingConsumption temperature baseEfficiency
    chargingDegradation batteryAgeCycles batteryAgeYears terrainFactor : ℝ)
    (climateControl : Bool) (climateFactor : ℝ) (regenBraking : Bool) (regenFactor : ℝ) :
    (getDynamicDefaults capacity).consumption =
      (if capacity > 75 then 18 else if capacity < 40 then 14 else 16) ∧
    (getDynamicDefaults capacity).terrainFactor = (if capacity > 75 then 1.05 else 1.0) ∧
    (calculateStats false soc capacity drivingConsumption temperature baseEfficiency
      chargingDegradation batteryAgeCycles batteryAgeYears terrainFactor climateControl
      climateFactor regenBraking regenFactor).stats =
      calculateRange soc capacity (getDynamicDefaults capacity).consumption 25 0.98 0.98
        100 2 (getDynamicDefaults capacity).terrainFactor false 0.85 true 1.05 :=
  ⟨rfl, rfl, rfl⟩

theorem degradation_nonneg (c y : ℝ) : 0 ≤ degradation c y := by
  unfold degradation
  exact le_trans (by norm_num) (le_max_left _ _)

theorem tempFactor_nonneg (t : ℝ) : 0 ≤ tempFactor t := by
  unfold tempFactor
  exact le_trans (by norm_num) (le_max_left _ _)

/-- The computed range is monotone in the state of charge when the capacity
and the multiplicative factors are nonnegative and the energy consumption is
positive. -/
theorem calculateRange_mono_in_soc (s1 s2 batteryCapacity drivingConsumption temperature
    baseEfficiency chargingDegradation batteryAgeCycles batteryAgeYears terrainFactor : ℝ)
    (climateControl : Bool) (climateFactor : ℝ) (regenBraking : Bool) (regenFactor : ℝ)
    (hcap : 0 ≤ batteryCapacity) (heff : 0 ≤ baseEfficiency)
    (hchg : 0 ≤ chargingDegradation) (hcf : 0 ≤ climateFactor) (hrf : 0 ≤ regenFactor)
    (hcons : 0 < drivingConsumption * terrainFactor) (hs : s1 ≤ s2) :
    (calculateRange s1 batteryCapacity drivingConsumption temperature baseEfficiency
      chargingDegradation batteryAgeCycles batteryAgeYears terrainFactor climateControl
      climateFactor regenBraking regenFactor).range ≤
    (calculateRange s2 batteryCapacity drivingConsumption temperature baseEfficiency
      chargingDegradation batteryAgeCycles batteryAgeYears terrainFactor climateControl
      climateFactor regenBraking regenFactor).range := by
  have hD : 0 ≤ degradation batteryAgeCycles batteryAgeYears :=
    degradation_nonneg batteryAgeCycles batteryAgeYears
  have hT : 0 ≤ tempFactor temperature := tempFactor_nonneg temperature
  have hCF : (0:ℝ) ≤ cond climateControl climateFactor 1.0 := by
    cases climateControl
    · norm_num
    · exact hcf
  have hRF : (0:ℝ) ≤ cond regenBraking regenFactor 1.0 := by
    cases regenBraking
    · norm_num
    · exact hrf
  have hE : effectiveCapacity s1 batteryCapacity temperature baseEfficiency
      chargingDegradation batteryAgeCycles batteryAgeYears climateControl climateFactor
      regenBraking regenFactor ≤
      effectiveCapacity s2 batteryCapacity temperature baseEfficiency
      chargingDegradation batteryAgeCycles batteryAgeYears climateControl climateFactor
      regenBraking regenFactor := by
    unfold effectiveCapacity
    have hprod : (0:ℝ) ≤ batteryCapacity * degradation batteryAgeCycles batteryAgeYears *
        baseEfficiency * chargingDegradation * tempFactor temperature *
        (cond climateControl climateFactor 1.0) * (cond regenBraking regenFactor 1.0) :=
      mul_nonneg (mul_nonneg (mul_nonneg (mul_nonneg (mul_nonneg
        (mul_nonneg hcap hD) heff) hchg) hT) hCF) hRF
    nlinarith [hprod, hs]
  simp only [calculateRange]
  exact max_le_max (le_refl 0)
    (mul_le_mul_of_nonneg_right ((div_le_div_right hcons).mpr hE) (by norm_num))

/-- C6: the Schema A sensitivity table enumerates soc 10, 30, 50, 70, 90 in
ascending order with all other parameters held at their effective values, and
over the declared input domains its range values are monotonically
non-decreasing in soc. -/
theorem C6_sensitivity_ordered_and_monotone (showAdvanced : Bool)
    (soc batteryCapacity drivingConsumption temperature baseEfficiency
    chargingDegradation batteryAgeCycles batteryAgeYears terrainFactor : ℝ)
    (climateControl : Bool) (climateFactor : ℝ) (regenBraking : Bool) (regenFactor : ℝ)
    (hcap : 10 ≤ batteryCapacity) (hcons : 5 ≤ drivingConsumption)
    (heff : 0.5 ≤ baseEfficiency) (hchg : 0.5 ≤ chargingDegradation)
    (hterr : 1 ≤ terrainFactor) (hcf : 0.5 ≤ climateFactor) (hrf : 1 ≤ regenFactor) :
    ((calculateStats showAdvanced soc batteryCapacity drivingConsumption temperature
      baseEfficiency chargingDegradation batteryAgeCycles batteryAgeYears terrainFactor
      climateControl climateFactor regenBraking regenFactor).rangeSensitivity.map
        Prod.fst = [10, 30, 50, 70, 90]) ∧
    List.Chain' (· ≤ ·)
      ((calculateStats showAdvanced soc batteryCapacity drivingConsumption temperature
        baseEfficiency chargingDegradation batteryAgeCycles batteryAgeYears terrainFactor
        climateControl climateFactor regenBraking regenFactor).rangeSensitivity.map
          Prod.snd) := by
  have key : ∀ s1 s2 : ℝ, s1 ≤ s2 →
      (calculateRange s1 batteryCapacity
        (cond showAdvanced drivingConsumption (getDynamicDefaults batteryCapacity).consumption)
        (cond showAdvanced temperature 25)
        (cond showAdvanced baseEfficiency 0.98)
        (cond showAdvanced chargingDegradation 0.98)
        (cond showAdvanced batteryAgeCycles 100)
        (cond showAdvanced batteryAgeYears 2)
        (cond showAdvanced terrainFactor (getDynamicDefaults batteryCapacity).terrainFactor)
        (cond showAdvanced climateControl false)
        (cond showAdvanced climateFactor 0.85)
        (cond showAdvanced regenBraking true)
        (cond showAdvanced regenFactor 1.05)).range ≤
      (calculateRange s2 batteryCapacity
        (cond showAdvanced drivingConsumption (getDynamicDefaults batteryCapacity).consumption)
        (cond showAdvanced temperature 25)
        (cond showAdvanced baseEfficiency 0.98)
        (cond showAdvanced chargingDegradation 0.98)
        (cond showAdvanced batteryAgeCycles 100)
        (cond showAdvanced batteryAgeYears 2)
        (cond showAdvanced terrainFactor (getDynamicDefaults batteryCapacity).terrainFactor)
        (cond showAdvanced climateControl false)
        (cond showAdvanced climateFactor 0.85)
        (cond showAdvanced regenBraking true)
        (cond showAdvanced regenFactor 1.05)).range := by
    intro s1 s2 hs
    refine calculateRange_mono_in_soc s1 s2 _ _ _ _ _ _ _ _ _ _ _ _ (by linarith) ?_ ?_ ?_ ?_ ?_ hs
    · cases showAdvanced
      · simp only [Bool.cond_false]; norm_num
      · simp only [Bool.cond_true]; linarith
    · cases showAdvanced
      · simp only [Bool.cond_false]; norm_num
      · simp only [Bool.cond_true]; linarith
    · cases showAdvanced
      · simp only [Bool.cond_false]; norm_num
      · simp only [Bool.cond_true]; linarith
    · cases showAdvanced
      · simp only [Bool.cond_false]; norm_num
      · simp only [Bool.cond_true]; linarith
    · cases showAdvanced
      · simp only [Bool.cond_false, getDynamicDefaults]
        split_ifs <;> norm_num
      · simp only [Bool.cond_true]
        exact mul_pos (by linarith) (by linarith)
  constructor
  · simp [calculateStats]
  · simp only [calculateStats, List.map_cons, List.map_nil, List.chain'_cons]
    refine ⟨key 10 30 (by norm_num), key 30 50 (by norm_num), key 50 70 (by norm_num),
      key 70 90 (by norm_num), List.chain'_singleton _⟩

/-- C6 witness: a concrete advanced-mode input inside the declared domains. -/
theorem C6_sensitivity_ordered_and_monotone_witness :
    ((calculateStats true 80 60 16 25 0.98 0.98 100 2 1 false 0.85 true
      1.05).rangeSensitivity.map Prod.fst = [10, 30, 50, 70, 90]) ∧
    List.Chain' (· ≤ ·)
      ((calculateStats true 80 60 16 25 0.98 0.98 100 2 1 false 0.85 true
        1.05).rangeSensitivity.map Prod.snd) :=
  C6_sensitivity_ordered_and_monotone true 80 60 16 25 0.98 0.98 100 2 1 false 0.85
    true 1.05 (by norm_num) (by norm_num) (by norm_num) (by norm_num) (by norm_num)
    (by norm_num) (by norm_num)

namespace SchemaB

/-- Source line 746: `type ClimateUsage = 'Low' | 'Medium' | 'High'`. -/
inductive ClimateUsage
  | Low
  | Medium
  | High

/-- Source line 747: `type TerrainType = 'Flat' | 'Hilly' | 'Mountain'`. -/
inductive TerrainType
  | Flat
  | Hilly
  | Mountain

/-- Source line 795: `temperatureFactor = 1 - (Math.abs(temperature - 70) * 0.015)`. -/
def temperatureFactor (temperature : ℚ) : ℚ :=
  1 - |temperature - 70| * 0.015

/-- Source line 798: `speedFactor = 1 - (Math.pow(Math.max(0, avgSpeed - 25), 2) * 0.0008)`. -/
def speedFactor (avgSpeed : ℚ) : ℚ :=
  1 - (max 0 (avgSpeed - 25)) ^ 2 * 0.0008

/-- Source lines 801–812: the climate-usage lookup. -/
def climateFactor : ClimateUsage → ℚ
  | ClimateUsage.Low => 0.95
  | ClimateUsage.Medium => 0.85
  | ClimateUsage.High => 0.75

/-- Source lines 815–826: the terrain-type lookup. -/
def terrainFactor : TerrainType → ℚ
  | TerrainType.Flat => 1
  | TerrainType.Hilly => 0.9
  | TerrainType.Mountain => 0.8

/-- Source line 835: `newEstimatedRange = epaRange * (currentCharge / 100) *
temperatureFactor * speedFactor * climateFactor * terrainFactor`. -/
def estimatedRange (epaRange currentCharge temperature avgSpeed : ℚ)
    (climateUsage : ClimateUsage) (terrainType : TerrainType) : ℚ :=
  epaRange * (currentCharge / 100) * temperatureFactor temperature *
    speedFactor avgSpeed * climateFactor climateUsage * terrainFactor terrainType

/-- JavaScript division as a partial operation: a zero divisor yields no
finite number (`NaN` or `±Infinity`), modelled as `none`. -/
def jsDiv (a b : ℚ) : Option ℚ :=
  if b = 0 then none else some (a / b)

/-- Source line 838: `newEfficiency = batteryCapacity ?
newEstimatedRange / (batteryCapacity * (currentCharge / 100)) : 0`.  The
truthiness guard tests only `batteryCapacity`; the division itself is
`jsDiv`. -/
def efficiency (batteryCapacity currentCharge newEstimatedRange : ℚ) : Option ℚ :=
  if batteryCapacity = 0 then some 0
  else jsDiv newEstimatedRange (batteryCapacity * (currentCharge / 100))

end SchemaB

/-- C2: inside the declared domains (temperature in [-20,120], speed in
[5,85], charge in (0,100], positive EPA range) there is an input whose
estimated range is strictly negative, because the temperature factor is not
floored: at -20°F it equals -0.35. -/
theorem C2_estimatedRange_can_be_negative :
    SchemaB.temperatureFactor (-20) = -0.35 ∧
    ∃ temperature avgSpeed currentCharge epaRange : ℚ,
      ∃ climateUsage : SchemaB.ClimateUsage, ∃ terrainType : SchemaB.TerrainType,
      -20 ≤ temperature ∧ temperature ≤ 120 ∧ 5 ≤ avgSpeed ∧ avgSpeed ≤ 85 ∧
      0 < currentCharge ∧ currentCharge ≤ 100 ∧ 0 < epaRange ∧
      SchemaB.estimatedRange epaRange currentCharge temperature avgSpeed
        climateUsage terrainType < 0 := by
  constructor
  · norm_num [SchemaB.temperatureFactor, abs_of_nonpos]
  · refine ⟨-20, 25, 80, 330, SchemaB.ClimateUsage.Medium, SchemaB.TerrainType.Flat,
      by norm_num, by norm_num, by norm_num, by norm_num, by norm_num, by norm_num,
      by norm_num, ?_⟩
    norm_num [SchemaB.estimatedRange, SchemaB.temperatureFactor, SchemaB.speedFactor,
      SchemaB.climateFactor, SchemaB.terrainFactor, abs_of_nonpos]

/-- C8: at the reference conditions 70°F and 25 mph both the temperature and
speed factors are exactly 1, and with climate Medium, terrain Flat, EPA range
330 and charge 80% the estimated range is exactly 224.4 miles. -/
theorem C8_epa_fixture :
    SchemaB.temperatureFactor 70 = 1 ∧ SchemaB.speedFactor 25 = 1 ∧
    SchemaB.estimatedRange 330 80 70 25 SchemaB.ClimateUsage.Medium
      SchemaB.TerrainType.Flat = 224.4 := by
  refine ⟨by norm_num [SchemaB.temperatureFactor], by norm_num [SchemaB.speedFactor], ?_⟩
  norm_num [SchemaB.estimatedRange, SchemaB.temperatureFactor, SchemaB.speedFactor,
    SchemaB.climateFactor, SchemaB.terrainFactor]

/-- C9: Schema B efficiency is the division of the estimated range by
`batteryCapacity * (charge / 100)` whenever the capacity is nonzero, and is 0
(with no division performed) when the capacity is zero. -/
theorem C9_efficiency_guard (batteryCapacity currentCharge newEstimatedRange : ℚ) :
    (batteryCapacity ≠ 0 →
      SchemaB.efficiency batteryCapacity currentCharge newEstimatedRange =
        SchemaB.jsDiv newEstimatedRange (batteryCapacity * (currentCharge / 100))) ∧
    (batteryCapacity = 0 →
      SchemaB.efficiency batteryCapacity currentCharge newEstimatedRange = some 0) := by
  constructor
  · intro h
    unfold SchemaB.efficiency
    rw [if_neg h]
  · intro h
    unfold SchemaB.efficiency
    rw [if_pos h]

/-- C9 witness: capacity 75, charge 80%, estimated range 224.4 give
efficiency 224.4 / 60 = 3.74; capacity 0 gives efficiency 0. -/
theorem C9_efficiency_guard_witness :
    SchemaB.efficiency 75 80 224.4 = some 3.74 ∧
    SchemaB.efficiency 0 80 224.4 = some 0 := by
  constructor
  · rw [(C9_efficiency_guard 75 80 224.4).1 (by norm_num)]
    norm_num [SchemaB.jsDiv]
  · exact (C9_efficiency_guard 0 80 224.4).2 rfl

/-- C10: the efficiency guard tests only the capacity: with capacity 75 and
charge 0 (inside the declared [0,100] charge domain) the divisor is zero, the
division is performed and no finite efficiency results (`none`, the
JavaScript `NaN`), while the capacity-0 case returns 0. -/
theorem C10_charge_zero_division_fault :
    (75 : ℚ) ≠ 0 ∧ (0 : ℚ) ≤ 0 ∧ (0 : ℚ) ≤ 100 ∧
    (75 : ℚ) * ((0 : ℚ) / 100) = 0 ∧
    SchemaB.estimatedRange 330 0 70 65 SchemaB.ClimateUsage.Medium
      SchemaB.TerrainType.Flat = 0 ∧
    SchemaB.efficiency 75 0 (SchemaB.estimatedRange 330 0 70 65
      SchemaB.ClimateUsage.Medium SchemaB.TerrainType.Flat) = none ∧
    SchemaB.efficiency 0 0 0 = some 0 := by
  refine ⟨by norm_num, le_refl 0, by norm_num, by norm_num, ?_, ?_, ?_⟩
  · norm_num [SchemaB.estimatedRange]
  · norm_num [SchemaB.efficiency, SchemaB.jsDiv]
  · norm_num [SchemaB.efficiency]

end EvDashboard
